import Mathlib

/-!
Verification of the input-validation and result-normalization core of the
molecular-classification-system frontend.

The source program is JavaScript; here it is shallowly embedded in Lean:

* `validateSMILES` embeds the validator of `MoleculeInput` (the function
  `validateSMILES`): an empty-after-trim check, a character-class check via
  the regex `[^A-Za-z0-9\[\]()=#+\-@\/\\\.]`, and a per-kind bracket *count*
  check, short-circuiting in that order.  Strings are modelled as `List Char`.
* `normalize` embeds the response transform inside `handlePrediction` of the
  application root (the construction of `transformedPrediction`).  JavaScript
  field access on a possibly-missing field is modelled with `Option`; the
  `Object.entries(undefined)` `TypeError` thrown when `functional_groups` is
  missing is modelled as `Except.error .malformedResponse`.  JavaScript
  numbers are modelled as `Rat` (only order comparisons against 0.5 matter).
* `handlePrediction` embeds the surrounding orchestration: how the
  try/catch/finally updates the displayed-prediction slot, the prediction
  counter and the loading flag for each possible fetch outcome.
-/

namespace MolClass

/-! ## Validator (`validateSMILES` in `MoleculeInput`) -/

/-- Validation outcome.  The JavaScript function returns `''` on success and
one of three fixed message strings otherwise; each message is one constructor. -/
inductive ValidationResult where
  | valid
  | emptyInput
  | invalidCharacters
  | unbalancedBrackets
deriving DecidableEq, Repr

/-- Whitespace as trimmed by JavaScript `String.prototype.trim` (the ASCII
whitespace characters; exotic Unicode space code points do not occur here). -/
def isWhitespaceJS (c : Char) : Bool :=
  c = ' ' || c = '\t' || c = '\n' || c = '\r' || c = '\x0b' || c = '\x0c'

/-- `s.trim()`: remove leading and trailing whitespace. -/
def trimJS (l : List Char) : List Char :=
  ((l.dropWhile isWhitespaceJS).reverse.dropWhile isWhitespaceJS).reverse

/-- The allowed character class of the validator regex
`[^A-Za-z0-9\[\]()=#+\-@\/\\\.]` : ASCII letters, digits, and
`[ ] ( ) = # + - @ / \ .` . -/
def isAllowedChar (c : Char) : Bool :=
  ('A' ≤ c && c ≤ 'Z') || ('a' ≤ c && c ≤ 'z') || ('0' ≤ c && c ≤ '9') ||
  c = '[' || c = ']' || c = '(' || c = ')' || c = '=' || c = '#' ||
  c = '+' || c = '-' || c = '@' || c = '/' || c = '\\' || c = '.'

/-- Contribution of one character to the running square-bracket count. -/
def squareDelta (c : Char) : Int :=
  if c = '[' then 1 else if c = ']' then -1 else 0

/-- Contribution of one character to the running round-bracket count. -/
def roundDelta (c : Char) : Int :=
  if c = '(' then 1 else if c = ')' then -1 else 0

/-- Final value of `squareCount` after the scan loop. -/
def squareCount (l : List Char) : Int := (l.map squareDelta).sum

/-- Final value of `roundCount` after the scan loop. -/
def roundCount (l : List Char) : Int := (l.map roundDelta).sum

/-- The validator: emptiness after trim, then character class, then the
per-kind bracket count check. -/
def validateSMILES (l : List Char) : ValidationResult :=
  if trimJS l = [] then .emptyInput
  else if l.any (fun c => !isAllowedChar c) then .invalidCharacters
  else if squareCount l ≠ 0 ∨ roundCount l ≠ 0 then .unbalancedBrackets
  else .valid

/-! ### Helper lemmas about the validator -/

lemma dropWhile_eq_nil_of_forall (p : Char → Bool) :
    ∀ l : List Char, (∀ c ∈ l, p c = true) → l.dropWhile p = [] := by
  intro l h
  rw [List.dropWhile_eq_nil_iff]
  exact h

lemma dropWhile_eq_self_of_forall (p : Char → Bool) :
    ∀ l : List Char, (∀ c ∈ l, p c = false) → l.dropWhile p = l := by
  intro l h
  cases l with
  | nil => rfl
  | cons a t =>
      have ha : p a = false := h a (List.mem_cons_self a t)
      simp [List.dropWhile, ha]

lemma mem_of_mem_dropWhile (p : Char → Bool) :
    ∀ l : List Char, ∀ c ∈ l.dropWhile p, c ∈ l := by
  intro l c hc
  exact (l.dropWhile_sublist p).subset hc

lemma trimJS_eq_nil_of_all_ws (l : List Char) (h : ∀ c ∈ l, isWhitespaceJS c) :
    trimJS l = [] := by
  unfold trimJS
  rw [dropWhile_eq_nil_of_forall _ l h]
  rfl

lemma trimJS_eq_self_of_no_ws (l : List Char) (h : ∀ c ∈ l, isWhitespaceJS c = false) :
    trimJS l = l := by
  unfold trimJS
  rw [dropWhile_eq_self_of_forall _ l h,
      dropWhile_eq_self_of_forall _ l.reverse (fun c hc => h c (List.mem_reverse.mp hc)),
      List.reverse_reverse]

lemma ws_not_allowed (c : Char) (h : isWhitespaceJS c = true) :
    isAllowedChar c = false := by
  simp only [isWhitespaceJS, Bool.or_eq_true, decide_eq_true_eq] at h
  rcases h with ((((h | h) | h) | h) | h) | h <;> subst h <;> decide

/-- Regime 1: `trim` empty ⇒ empty-input reason. -/
lemma validate_of_trim_nil (l : List Char) (h : trimJS l = []) :
    validateSMILES l = .emptyInput := by
  simp [validateSMILES, h]

/-- Regime 2: `trim` nonempty and some disallowed character ⇒ invalid-characters
reason, regardless of bracket counts. -/
lemma validate_of_bad_char (l : List Char) (h : trimJS l ≠ [])
    (hc : ∃ c ∈ l, ¬ isAllowedChar c) : validateSMILES l = .invalidCharacters := by
  obtain ⟨c, hcl, hca⟩ := hc
  have hany : l.any (fun c => !isAllowedChar c) = true := by
    rw [List.any_eq_true]
    exact ⟨c, hcl, by simp [Bool.eq_false_iff.mpr hca]⟩
  simp [validateSMILES, h, hany]

/-- Regime 3: `trim` nonempty and all characters allowed ⇒ the result is
decided purely by the two running bracket counts. -/
lemma validate_of_good_chars (l : List Char) (h : trimJS l ≠ [])
    (hc : ∀ c ∈ l, isAllowedChar c) :
    validateSMILES l =
      if squareCount l = 0 ∧ roundCount l = 0 then .valid else .unbalancedBrackets := by
  have hany : l.any (fun c => !isAllowedChar c) = false := by
    rw [Bool.eq_false_iff]
    intro hco
    obtain ⟨c, hcl, hca⟩ := List.any_eq_true.mp hco
    rw [hc c hcl] at hca
    exact absurd hca (by decide)
  by_cases hb : squareCount l = 0 ∧ roundCount l = 0
  · simp [validateSMILES, h, hany, hb.1, hb.2]
  · have hb' : squareCount l ≠ 0 ∨ roundCount l ≠ 0 := by tauto
    simp [validateSMILES, h, hany, if_neg hb, hb']

/-- All characters of a successfully validated string are in the allowed set. -/
lemma all_allowed_of_valid (l : List Char) (h : validateSMILES l = .valid) :
    ∀ c ∈ l, isAllowedChar c := by
  intro c hcl
  by_contra hca
  rw [validate_of_bad_char l ?_ ⟨c, hcl, hca⟩] at h
  · exact ValidationResult.noConfusion h
  · intro hnil
    rw [validate_of_trim_nil l hnil] at h
    exact ValidationResult.noConfusion h

/-- The running square count equals the difference of the occurrence counts of
`[` and `]`. -/
lemma squareCount_eq_counts (l : List Char) :
    squareCount l = (l.count '[' : Int) - (l.count ']' : Int) := by
  induction l with
  | nil => rfl
  | cons a t ih =>
      have hst : squareCount (a :: t) = squareDelta a + squareCount t := by
        simp [squareCount]
      rw [hst, ih]
      by_cases h1 : a = '['
      · subst h1; simp [squareDelta, List.count_cons]; ring
      · by_cases h2 : a = ']'
        · subst h2; simp [squareDelta, List.count_cons]; ring
        · simp [squareDelta, h1, h2, List.count_cons, Ne.symm h1, Ne.symm h2]

/-- The running round count equals the difference of the occurrence counts of
`(` and `)`. -/
lemma roundCount_eq_counts (l : List Char) :
    roundCount l = (l.count '(' : Int) - (l.count ')' : Int) := by
  induction l with
  | nil => rfl
  | cons a t ih =>
      have hst : roundCount (a :: t) = roundDelta a + roundCount t := by
        simp [roundCount]
      rw [hst, ih]
      by_cases h1 : a = '('
      · subst h1; simp [roundDelta, List.count_cons]; ring
      · by_cases h2 : a = ')'
        · subst h2; simp [roundDelta, List.count_cons]; ring
        · simp [roundDelta, h1, h2, List.count_cons, Ne.symm h1, Ne.symm h2]

lemma squareCount_zero_iff (l : List Char) :
    squareCount l = 0 ↔ l.count '[' = l.count ']' := by
  rw [squareCount_eq_counts, sub_eq_zero]
  exact Int.natCast_inj

lemma roundCount_zero_iff (l : List Char) :
    roundCount l = 0 ↔ l.count '(' = l.count ')' := by
  rw [roundCount_eq_counts, sub_eq_zero]
  exact Int.natCast_inj

/-! ## Validator claims -/

/-- C5: the validator evaluates emptiness, then character class, then bracket
balance, short-circuiting on the first failure, so each call yields success or
exactly one reason; in particular every all-whitespace string yields the
empty-input reason. -/
theorem C5_validate_check_order :
    (∀ l : List Char, trimJS l = [] → validateSMILES l = .emptyInput) ∧
    (∀ l : List Char, trimJS l ≠ [] → (∃ c ∈ l, ¬ isAllowedChar c) →
        validateSMILES l = .invalidCharacters) ∧
    (∀ l : List Char, trimJS l ≠ [] → (∀ c ∈ l, isAllowedChar c) →
        validateSMILES l =
          if squareCount l = 0 ∧ roundCount l = 0 then .valid
          else .unbalancedBrackets) ∧
    (∀ l : List Char, (∀ c ∈ l, isWhitespaceJS c) → validateSMILES l = .emptyInput) :=
  ⟨validate_of_trim_nil, validate_of_bad_char, validate_of_good_chars,
   fun l h => validate_of_trim_nil l (trimJS_eq_nil_of_all_ws l h)⟩

theorem C5_witness : validateSMILES [' ', '\t', '\n', ' '] = .emptyInput :=
  C5_validate_check_order.2.2.2 [' ', '\t', '\n', ' '] (by decide)

/-- C4: for inputs that reach the bracket check (nonempty after trim, all
characters allowed), the check is count-only and per bracket kind: equal
counts succeed regardless of interleaving (so `([)]` is accepted), unequal
counts yield the unbalanced-brackets reason (`CC(` and `CC)` fail). -/
theorem C4_bracket_count_only :
    (∀ l : List Char, trimJS l ≠ [] → (∀ c ∈ l, isAllowedChar c) →
        (l.count '(' = l.count ')' ∧ l.count '[' = l.count ']') →
          validateSMILES l = .valid) ∧
    (∀ l : List Char, trimJS l ≠ [] → (∀ c ∈ l, isAllowedChar c) →
        (l.count '(' ≠ l.count ')' ∨ l.count '[' ≠ l.count ']') →
          validateSMILES l = .unbalancedBrackets) ∧
    validateSMILES ['(', '[', ')', ']'] = .valid ∧
    validateSMILES ['C', 'C', '('] = .unbalancedBrackets ∧
    validateSMILES ['C', 'C', ')'] = .unbalancedBrackets := by
  refine ⟨?_, ?_, by decide, by decide, by decide⟩
  · intro l h hc hcount
    rw [validate_of_good_chars l h hc,
        if_pos ⟨(squareCount_zero_iff l).mpr hcount.2, (roundCount_zero_iff l).mpr hcount.1⟩]
  · intro l h hc hcount
    rw [validate_of_good_chars l h hc, if_neg]
    rintro ⟨hs, hr⟩
    rcases hcount with hcount | hcount
    · exact hcount ((roundCount_zero_iff l).mp hr)
    · exact hcount ((squareCount_zero_iff l).mp hs)

theorem C4_witness : validateSMILES ['(', '[', ')', ']'] = .valid :=
  C4_bracket_count_only.1 ['(', '[', ')', ']'] (by decide) (by decide) (by decide)

/-- C6: any input that survives the emptiness check and contains a character
outside the allowed set yields the invalid-characters reason; since this holds
regardless of bracket counts, the character check takes precedence over the
bracket check (`C;C(` fails both and reports invalid characters). -/
theorem C6_invalid_characters_precedence :
    (∀ l : List Char, trimJS l ≠ [] → (∃ c ∈ l, ¬ isAllowedChar c) →
        validateSMILES l = .invalidCharacters) ∧
    validateSMILES ['C', ';', 'C'] = .invalidCharacters ∧
    validateSMILES ['C', ';', 'C', '('] = .invalidCharacters :=
  ⟨validate_of_bad_char, by decide, by decide⟩

theorem C6_witness : validateSMILES ['C', ';', 'C', '('] = .invalidCharacters :=
  C6_invalid_characters_precedence.1 ['C', ';', 'C', '(']
    (by decide) ⟨';', by decide, by decide⟩

/-- C9: the character check runs on the untrimmed input and whitespace is not
allowed, so any input with nonempty trim containing whitespace (e.g. padding
around a valid notation) is rejected with the invalid-characters reason, and
every successfully validated input is whitespace-free and equals its trim. -/
theorem C9_whitespace_never_validates :
    (∀ l : List Char, trimJS l ≠ [] → (∃ c ∈ l, isWhitespaceJS c) →
        validateSMILES l = .invalidCharacters) ∧
    (∀ l : List Char, validateSMILES l = .valid →
        (∀ c ∈ l, isWhitespaceJS c = false) ∧ trimJS l = l) := by
  constructor
  · rintro l h ⟨c, hcl, hcw⟩
    exact validate_of_bad_char l h ⟨c, hcl, by simp [ws_not_allowed c hcw]⟩
  · intro l h
    have hall := all_allowed_of_valid l h
    have hnw : ∀ c ∈ l, isWhitespaceJS c = false := by
      intro c hcl
      cases hb : isWhitespaceJS c with
      | false => rfl
      | true =>
          have hna := ws_not_allowed c hb
          rw [hall c hcl] at hna
          exact Bool.noConfusion hna
    exact ⟨hnw, trimJS_eq_self_of_no_ws l hnw⟩

theorem C9_witness : validateSMILES [' ', 'C', 'C', 'O', ' '] = .invalidCharacters :=
  C9_whitespace_never_validates.1 [' ', 'C', 'C', 'O', ' ']
    (by decide) ⟨' ', by decide, by decide⟩

/-! ## Result normalizer (the `transformedPrediction` construction in
`handlePrediction` of the application root) -/

/-- `result.level1` of the backend response.  `prediction` is `Option` because
plain JavaScript field access yields `undefined` when the field is missing
(no exception is thrown there). -/
structure Level1 where
  has_functional_groups : Bool
  confidence : Rat
  prediction : Option String
deriving DecidableEq, Repr

/-- `result.level2`.  `functional_groups` is the stage-2 mapping as an
association list in the object's iteration order; it is `Option` because
`Object.entries` throws when the field is missing. -/
structure Level2 where
  functional_groups : Option (List (String × Rat))
  detected_groups : List String
  total_detected : Nat
deriving DecidableEq, Repr

/-- `result.metadata`. -/
structure Metadata where
  algorithm : String
  in_dataset : Bool
  feature_count : Nat
deriving DecidableEq, Repr

/-- The successful `/predict` response body consumed by the transform. -/
structure PredictResponse where
  smiles : String
  level1 : Level1
  level2 : Level2
  metadata : Metadata
  processing_time : Rat
  warnings : Option (List String)
  timestamp : String
deriving DecidableEq, Repr

/-- One entry of `transformedPrediction.functionalGroups`. -/
structure GroupRecord where
  name : String
  probability : Rat
  detected : Bool
  confidence : Rat
deriving DecidableEq, Repr

/-- The flat record handed to the display layer (`transformedPrediction`). -/
structure NormalizedPrediction where
  smiles : String
  hasGroups : Bool
  confidence : Rat
  level1Prediction : Option String
  functionalGroups : List GroupRecord
  detectedGroups : List String
  totalDetected : Nat
  modelUsed : String
  processingTime : Rat
  inDataset : Bool
  warnings : List String
  timestamp : String
  featureCount : Nat
deriving DecidableEq, Repr

/-- The transform throwing on a structurally required missing field. -/
inductive NormalizeError where
  | malformedResponse
deriving DecidableEq, Repr

/-- `name.charAt(0).toUpperCase() + name.slice(1)`. -/
def capitalizeFirst (s : String) : String :=
  match s.data with
  | [] => ""
  | c :: rest => String.mk (c.toUpper :: rest)

/-- `([name, probability]) => ({ name, probability, detected, confidence })` :
the per-group arrow function inside the `Object.entries(...).map(...)` call. -/
def mkGroupRecord (p : String × Rat) : GroupRecord :=
  { name := capitalizeFirst p.1
    probability := p.2
    detected := decide (mkRat 1 2 < p.2)
    confidence := p.2 }

/-- The response transform.  Field for field the `transformedPrediction`
object literal; a missing `functional_groups` mapping makes
`Object.entries` throw, which is the error branch here. -/
def normalize (r : PredictResponse) : Except NormalizeError NormalizedPrediction :=
  match r.level2.functional_groups with
  | none => .error .malformedResponse
  | some fgs => .ok
      { smiles := r.smiles
        hasGroups := r.level1.has_functional_groups
        confidence := r.level1.confidence
        level1Prediction := r.level1.prediction
        functionalGroups := fgs.map mkGroupRecord
        detectedGroups := r.level2.detected_groups
        totalDetected := r.level2.total_detected
        modelUsed := r.metadata.algorithm
        processingTime := r.processing_time
        inDataset := r.metadata.in_dataset
        warnings := r.warnings.getD []
        timestamp := r.timestamp
        featureCount := r.metadata.feature_count }

/-- Number of per-group records carrying `detected = true`. -/
def countDetected (gs : List GroupRecord) : Nat :=
  (gs.filter (fun g => g.detected)).length

/-! ## Orchestration (`handlePrediction` around the transform) -/

/-- How a `/predict` round trip can end, as seen by the `try` block:
a rejected `fetch`/`json()` promise, a parsed body with `success: false`
(which is thrown), or a parsed successful body. -/
inductive FetchOutcome where
  | networkError (msg : String)
  | apiFailure (msg : String)
  | apiSuccess (r : PredictResponse)
deriving DecidableEq, Repr

/-- Which toast the handler shows at the end. -/
inductive ToastKind where
  | success
  | error
deriving DecidableEq, Repr

/-- The pieces of application state `handlePrediction` touches. -/
structure AppState where
  predictionData : Option NormalizedPrediction
  totalPredictions : Nat
  isLoading : Bool
deriving DecidableEq, Repr

/-- State update of `handlePrediction` for a given fetch outcome: the `catch`
block runs `setPredictionData(null)` and shows an error toast; the success
path stores the transformed prediction, bumps the counter and shows a
success toast; `finally` clears the loading flag either way. -/
def handlePrediction (st : AppState) (o : FetchOutcome) : AppState × ToastKind :=
  match o with
  | .networkError _ =>
      ({ st with predictionData := none, isLoading := false }, .error)
  | .apiFailure _ =>
      ({ st with predictionData := none, isLoading := false }, .error)
  | .apiSuccess r =>
      match normalize r with
      | .error _ =>
          ({ st with predictionData := none, isLoading := false }, .error)
      | .ok n =>
          ({ predictionData := some n
             totalPredictions := st.totalPredictions + 1
             isLoading := false }, .success)

/-! ### Helper lemmas about the normalizer -/

/-- Inversion: a successful `normalize` run determines every output field from
the response. -/
lemma normalize_ok_spec {r : PredictResponse} {n : NormalizedPrediction}
    (h : normalize r = .ok n) :
    ∃ fgs, r.level2.functional_groups = some fgs ∧
      n = { smiles := r.smiles
            hasGroups := r.level1.has_functional_groups
            confidence := r.level1.confidence
            level1Prediction := r.level1.prediction
            functionalGroups := fgs.map mkGroupRecord
            detectedGroups := r.level2.detected_groups
            totalDetected := r.level2.total_detected
            modelUsed := r.metadata.algorithm
            processingTime := r.processing_time
            inDataset := r.metadata.in_dataset
            warnings := r.warnings.getD []
            timestamp := r.timestamp
            featureCount := r.metadata.feature_count } := by
  unfold normalize at h
  split at h
  · exact Except.noConfusion h
  · rename_i fgs heq
    injection h with h
    exact ⟨fgs, heq, h.symm⟩

/-! ### Concrete fixtures (used for counterexamples and witnesses) -/

/-- A representative successful response: `CCO` with groups
`{alcohol: 0.9, amine: 0.3, ester: 0.5}`. -/
def rBase : PredictResponse :=
  { smiles := "CCO"
    level1 := { has_functional_groups := true
                confidence := mkRat 95 100
                prediction := some "HAS_GROUPS" }
    level2 := { functional_groups := some
                  [("alcohol", mkRat 9 10), ("amine", mkRat 3 10),
                   ("ester", mkRat 1 2)]
                detected_groups := ["alcohol"]
                total_detected := 1 }
    metadata := { algorithm := "gnn", in_dataset := true, feature_count := 64 }
    processing_time := mkRat 12 100
    warnings := none
    timestamp := "2024-01-01T00:00:00Z" }

/-- What the transform produces for `rBase`. -/
def nBase : NormalizedPrediction :=
  { smiles := "CCO"
    hasGroups := true
    confidence := mkRat 95 100
    level1Prediction := some "HAS_GROUPS"
    functionalGroups :=
      [{ name := "Alcohol", probability := mkRat 9 10, detected := true,
         confidence := mkRat 9 10 },
       { name := "Amine", probability := mkRat 3 10, detected := false,
         confidence := mkRat 3 10 },
       { name := "Ester", probability := mkRat 1 2, detected := false,
         confidence := mkRat 1 2 }]
    detectedGroups := ["alcohol"]
    totalDetected := 1
    modelUsed := "gnn"
    processingTime := mkRat 12 100
    inDataset := true
    warnings := []
    timestamp := "2024-01-01T00:00:00Z"
    featureCount := 64 }

lemma normalize_rBase : normalize rBase = .ok nBase := by rfl

/-- `rBase` with the stage-1 label missing. -/
def rNoLabel : PredictResponse :=
  { rBase with level1 := { rBase.level1 with prediction := none } }

/-- `rBase` with the stage-2 mapping missing. -/
def rMissing : PredictResponse :=
  { rBase with level2 := { rBase.level2 with functional_groups := none } }

/-- A response whose `total_detected` disagrees with its per-group
probabilities: it claims 5 detections but no probability exceeds 0.5. -/
def rMismatch : PredictResponse :=
  { rBase with level2 := { functional_groups := some [("amine", mkRat 3 10)]
                           detected_groups := []
                           total_detected := 5 } }

/-- A prior application state that already displays a prediction. -/
def stPrior : AppState :=
  { predictionData := some nBase, totalPredictions := 3, isLoading := true }

/-- What the transform produces for `rNoLabel`. -/
def nNoLabel : NormalizedPrediction :=
  { nBase with level1Prediction := none }

/-- What the transform produces for `rMismatch`. -/
def nMismatch : NormalizedPrediction :=
  { nBase with
      functionalGroups :=
        [{ name := "Amine", probability := mkRat 3 10, detected := false,
           confidence := mkRat 3 10 }]
      detectedGroups := []
      totalDetected := 5 }

/-- The exact rational 0.5 of the detection threshold. -/
lemma mkRat_one_two : mkRat 1 2 = (1 : Rat) / 2 := by norm_num

/-! ## Normalizer and orchestration claims -/

/-- C2 (amended): the normalizer copies the stage-1 fields verbatim —
`has_functional_groups`, `confidence`, and the `prediction` label exactly as
it appears in the response, an absent label staying absent; the
`HAS_GROUPS`/`NO_GROUPS` fallback is applied downstream by the display
component, not by the normalizer. -/
theorem C2_stage1_fields_copied :
    ∀ (r : PredictResponse) (n : NormalizedPrediction), normalize r = .ok n →
      n.hasGroups = r.level1.has_functional_groups ∧
      n.confidence = r.level1.confidence ∧
      n.level1Prediction = r.level1.prediction := by
  intro r n h
  obtain ⟨fgs, -, rfl⟩ := normalize_ok_spec h
  exact ⟨rfl, rfl, rfl⟩

/-- C2 (counterexample to the claim as stated): on a response whose stage-1
label is absent while `has_functional_groups` is true, the normalizer emits no
label at all rather than synthesizing `"HAS_GROUPS"`. -/
theorem C2_counterexample :
    rNoLabel.level1.prediction = none ∧
    rNoLabel.level1.has_functional_groups = true ∧
    normalize rNoLabel = .ok nNoLabel ∧
    nNoLabel.level1Prediction = none ∧
    nNoLabel.level1Prediction ≠ some "HAS_GROUPS" ∧
    nNoLabel.level1Prediction ≠ some "NO_GROUPS" :=
  ⟨rfl, rfl, by rfl, rfl, by simp [nNoLabel], by simp [nNoLabel]⟩

theorem C2_witness :
    nBase.hasGroups = rBase.level1.has_functional_groups ∧
    nBase.confidence = rBase.level1.confidence ∧
    nBase.level1Prediction = rBase.level1.prediction :=
  C2_stage1_fields_copied rBase nBase (by rfl)

/-- C3: the normalizer emits exactly one record per key of the stage-2
mapping, in order; each record capitalizes only the first character of the
group name, carries the probability verbatim into both `probability` and
`confidence`, and sets `detected` iff the probability strictly exceeds 0.5
(so 0.5 exactly gives `detected = false`). -/
theorem C3_group_records :
    ∀ (r : PredictResponse) (fgs : List (String × Rat)) (n : NormalizedPrediction),
      r.level2.functional_groups = some fgs → normalize r = .ok n →
      n.functionalGroups.length = fgs.length ∧
      (∀ i (hi : i < fgs.length) (hj : i < n.functionalGroups.length),
        (n.functionalGroups.get ⟨i, hj⟩).name = capitalizeFirst (fgs.get ⟨i, hi⟩).1 ∧
        (n.functionalGroups.get ⟨i, hj⟩).probability = (fgs.get ⟨i, hi⟩).2 ∧
        (n.functionalGroups.get ⟨i, hj⟩).confidence = (fgs.get ⟨i, hi⟩).2 ∧
        ((n.functionalGroups.get ⟨i, hj⟩).detected = true ↔
          (1 : Rat) / 2 < (fgs.get ⟨i, hi⟩).2)) ∧
      (∀ i (hi : i < fgs.length) (hj : i < n.functionalGroups.length),
        (fgs.get ⟨i, hi⟩).2 = (1 : Rat) / 2 →
          (n.functionalGroups.get ⟨i, hj⟩).detected = false) := by
  intro r fgs n hf h
  obtain ⟨fgs', hf', rfl⟩ := normalize_ok_spec h
  rw [hf] at hf'
  injection hf' with hf'
  subst hf'
  refine ⟨by simp, ?_, ?_⟩
  · intro i hi hj
    show (List.get (fgs.map mkGroupRecord) ⟨i, hj⟩).name = _ ∧ _
    simp only [List.get_eq_getElem, List.getElem_map, mkGroupRecord]
    refine ⟨trivial, trivial, trivial, ?_⟩
    rw [mkRat_one_two, decide_eq_true_eq]
  · intro i hi hj hp
    show (List.get (fgs.map mkGroupRecord) ⟨i, hj⟩).detected = false
    simp only [List.get_eq_getElem, List.getElem_map, mkGroupRecord]
    rw [mkRat_one_two]
    rw [List.get_eq_getElem] at hp
    rw [hp]
    simp

theorem C3_witness :
    nBase.functionalGroups.length =
      [("alcohol", mkRat 9 10), ("amine", mkRat 3 10), ("ester", mkRat 1 2)].length ∧
    (nBase.functionalGroups.get ⟨2, by decide⟩).detected = false :=
  ⟨(C3_group_records rBase _ nBase rfl (by rfl)).1,
   (C3_group_records rBase _ nBase rfl (by rfl)).2.2 2 (by decide) (by decide)
     (by norm_num)⟩

/-- C7: a response whose stage-2 `functional_groups` mapping is missing makes
the normalizer fail with a malformed-response error instead of silently
defaulting the group list. -/
theorem C7_missing_mapping_is_error :
    ∀ r : PredictResponse, r.level2.functional_groups = none →
      normalize r = .error .malformedResponse := by
  intro r h
  unfold normalize
  split
  · rfl
  · rename_i fgs heq
    rw [h] at heq
    exact Option.noConfusion heq

theorem C7_witness : normalize rMissing = .error .malformedResponse :=
  C7_missing_mapping_is_error rMissing (by rfl)

/-- C8: the normalization transform is a deterministic pure function of the
response, and the output timestamp is the response's timestamp — none is
generated during the transform. -/
theorem C8_normalize_pure_timestamp_from_response :
    (∀ r₁ r₂ : PredictResponse, r₁ = r₂ → normalize r₁ = normalize r₂) ∧
    (∀ (r : PredictResponse) (n : NormalizedPrediction),
      normalize r = .ok n → n.timestamp = r.timestamp) := by
  constructor
  · intro r₁ r₂ h
    rw [h]
  · intro r n h
    obtain ⟨fgs, -, rfl⟩ := normalize_ok_spec h
    rfl

theorem C8_witness : nBase.timestamp = rBase.timestamp :=
  C8_normalize_pure_timestamp_from_response.2 rBase nBase (by rfl)

/-- C10: `totalDetected` is copied verbatim from `level2.total_detected` and
never recomputed from the per-group records, so it can disagree with the
number of records having `detected = true` (here 5 against 0). -/
theorem C10_totalDetected_copied_not_recomputed :
    (∀ (r : PredictResponse) (n : NormalizedPrediction),
      normalize r = .ok n → n.totalDetected = r.level2.total_detected) ∧
    normalize rMismatch = .ok nMismatch ∧
    nMismatch.totalDetected = 5 ∧
    countDetected nMismatch.functionalGroups = 0 ∧
    nMismatch.totalDetected ≠ countDetected nMismatch.functionalGroups := by
  refine ⟨?_, by rfl, rfl, by rfl, by decide⟩
  intro r n h
  obtain ⟨fgs, -, rfl⟩ := normalize_ok_spec h
  rfl

theorem C10_witness : nMismatch.totalDetected = rMismatch.level2.total_detected :=
  C10_totalDetected_copied_not_recomputed.1 rMismatch nMismatch (by rfl)

/-- C1 (amended): when a prediction request fails — network error, thrown
`success:false` body, or a malformed successful body — the handler surfaces an
error toast, *clears* the displayed prediction (`setPredictionData(null)`),
and resets the loading flag; the prior displayed prediction is not
preserved. -/
theorem C1_failure_surfaces_error_and_clears :
    ∀ (st : AppState) (msg : String) (r : PredictResponse),
      (handlePrediction st (.networkError msg)).2 = .error ∧
      (handlePrediction st (.networkError msg)).1.predictionData = none ∧
      (handlePrediction st (.networkError msg)).1.isLoading = false ∧
      (handlePrediction st (.apiFailure msg)).2 = .error ∧
      (handlePrediction st (.apiFailure msg)).1.predictionData = none ∧
      (normalize r = .error .malformedResponse →
        (handlePrediction st (.apiSuccess r)).2 = .error ∧
        (handlePrediction st (.apiSuccess r)).1.predictionData = none) := by
  intro st msg r
  refine ⟨rfl, rfl, rfl, rfl, rfl, ?_⟩
  intro h
  simp [handlePrediction, h]

/-- C1 (counterexample to the claim as stated): starting from a state that
already displays a prediction, a failed request ends with the displayed
prediction cleared, not preserved. -/
theorem C1_counterexample :
    stPrior.predictionData = some nBase ∧
    (handlePrediction stPrior (.networkError "Failed to fetch")).2 = .error ∧
    (handlePrediction stPrior (.networkError "Failed to fetch")).1.predictionData
      = none ∧
    (handlePrediction stPrior (.networkError "Failed to fetch")).1.predictionData
      ≠ stPrior.predictionData :=
  ⟨rfl, rfl, rfl, by simp [handlePrediction, stPrior]⟩

theorem C1_witness :
    (handlePrediction stPrior (.apiSuccess rMissing)).1.predictionData = none :=
  ((C1_failure_surfaces_error_and_clears stPrior "boom" rMissing).2.2.2.2.2
    (by rfl)).2

end MolClass
